import Mathlib

/-!
Shallow embedding of the `libcoap-rs` context layer
(`src/libcoap/src/context.rs` and `src/libcoap/src/crypto/oscore/mod.rs`).

The native libcoap engine (`libcoap-sys`) is external to the repository: its
calls are modelled as oracle parameters (the value the native call would
return) and as emitted events in a call trace, so that ordering properties of
the FFI calls can be stated.  Rust machine integers are modelled as `Nat`/`Int`
with explicit saturation/overflow behaviour where the source relies on it.
-/

set_option autoImplicit false

namespace LibcoapRs

/-- `u32::MAX`. -/
def U32_MAX : Nat := 4294967295

/-- The libcoap sentinel `COAP_IO_WAIT` (defined as `0` in `coap_net.h` of the
native engine): passing it to `coap_io_process` means "wait indefinitely". -/
def COAP_IO_WAIT : Nat := 0

/-- `u128::saturating_add` on the `Nat` model of `u128`. -/
def u128_saturating_add (a b : Nat) : Nat := min (a + b) (2 ^ 128 - 1)

/-- `u32::try_from(n).unwrap_or(u32::MAX)`: the conversion in `do_io`, which
falls back to `u32::MAX` when the value does not fit. -/
def u32_try_from_or_max (n : Nat) : Nat := if n ≤ U32_MAX then n else U32_MAX

/-- `u32::saturating_add` on the `Nat` model of `u32`. -/
def u32_saturating_add (a b : Nat) : Nat := min (a + b) U32_MAX

/-- `std::time::Duration`, modelled as a total number of nanoseconds. -/
structure Duration where
  nanos : Nat
deriving DecidableEq, Repr

namespace Duration

/-- `Duration::as_millis`: the whole number of milliseconds (rounded down). -/
def as_millis (d : Duration) : Nat := d.nanos / 1000000

/-- `Duration::subsec_nanos`: the fractional part in nanoseconds. -/
def subsec_nanos (d : Duration) : Nat := d.nanos % 1000000000

/-- `Duration::subsec_micros`: the fractional part in whole microseconds. -/
def subsec_micros (d : Duration) : Nat := d.subsec_nanos / 1000

/-- `Duration::from_millis`. -/
def from_millis (ms : Nat) : Duration := ⟨ms * 1000000⟩

end Duration

/-- `error::IoProcessError`. -/
inductive IoProcessError where
  | Unknown
deriving DecidableEq, Repr

/-- The timeout conversion inside `CoapContext::do_io`
(`context.rs:206-214`): for `Some(timeout)`,
`u32::try_from(timeout.as_millis().saturating_add(1)).unwrap_or(u32::MAX)`,
then a further `saturating_add(1)` when
`timeout.subsec_micros() > 0 || timeout.subsec_nanos() > 0`;
for `None`, the sentinel `COAP_IO_WAIT`. -/
def computeNativeTimeout : Option Duration → Nat
  | some timeout =>
    let temp_timeout := u32_try_from_or_max (u128_saturating_add timeout.as_millis 1)
    if timeout.subsec_micros > 0 ∨ timeout.subsec_nanos > 0 then
      u32_saturating_add temp_timeout 1
    else
      temp_timeout
  | none => COAP_IO_WAIT

/-- `CoapContext::do_io` (`context.rs:205-220`).  The native call
`coap_io_process(raw_context, timeout)` is external; its return value (a C
`int`) is supplied as the oracle parameter `spent_time`.  The timeout argument
is converted by `computeNativeTimeout` before being passed to the native call;
the result handling is: negative means failure, otherwise
`Ok(Duration::from_millis(spent_time.unsigned_abs() as u64))`. -/
def do_io (timeout : Option Duration) (spent_time : Int) :
    Except IoProcessError Duration :=
  let _native_timeout : Nat := computeNativeTimeout timeout
  if spent_time < 0 then
    Except.error IoProcessError.Unknown
  else
    Except.ok (Duration.from_millis spent_time.natAbs)

/-- `std::net::SocketAddr`, modelled as an opaque ip/port pair with decidable
equality (only equality of addresses matters to the context layer). -/
structure SocketAddr where
  ip : Nat
  port : Nat
deriving DecidableEq, Repr

/-- PSK credential material (`CoapCryptoPskInfo`): identity and key bytes. -/
structure CoapCryptoPskInfo where
  identity : List Nat
  key : List Nat
deriving DecidableEq, Repr

/-- Modelled from the spec: the Shared Ownership Token
(`CoapAppDataRef<CoapClientSession>`, whose source file `src/types.rs` is not
part of the provided sources) is an `Rc<RefCell<CoapClientSession>>` that can
be converted to and from a raw pointer stored in the native session's app-data
slot.  The model keeps the native session identity and the total `Rc` strong
count; the source comment at `context.rs:263` and spec section 3 fix the
bookkeeping: one strong reference lives in the native app-data slot, one in
the context's `client_sessions` table, and any further ones are held
externally (e.g. by a still-live `CoapSessionHandle`). -/
structure SessionToken where
  raw_session : Nat
  strongCount : Nat
deriving DecidableEq, Repr

/-- Modelled from the spec: `CoapClientSession::from_raw` (section 4.2,
`from_native`) wraps a freshly created native session; together with the leaked
clone placed in the native app-data slot, the table insertion and the returned
handle, three host-side strong references exist right after a `connect_*`
call returns. -/
def mkSessionToken (raw : Nat) : SessionToken :=
  { raw_session := raw, strongCount := 3 }

/-- The `client_sessions` field of `CoapContext`: a `HashMap<SocketAddr, _>`
modelled as an association list.  `insert` replaces an existing binding for
the same key, like `HashMap::insert`. -/
def insertSession (m : List (SocketAddr × SessionToken)) (k : SocketAddr)
    (v : SessionToken) : List (SocketAddr × SessionToken) :=
  (k, v) :: m.filter (fun e => e.1 ≠ k)

/-- `HashMap::get` on the association-list model of `client_sessions`. -/
def lookupSession (m : List (SocketAddr × SessionToken)) (k : SocketAddr) :
    Option SessionToken :=
  (m.find? (fun e => e.1 = k)).map (·.2)

/-- `error::SessionCreationError`. -/
inductive SessionCreationError where
  | Unknown
deriving DecidableEq, Repr

/-- `error::EndpointCreationError`. -/
inductive EndpointCreationError where
  | Unknown
deriving DecidableEq, Repr

/-- The panic messages the context layer can raise (the strings passed to
`expect`, and the message of the `todo` macro). -/
inductive PanicMessage where
  /-- `expect("crypto provider did not provide default credentials")`,
  `context.rs:72`. -/
  | noDefaultCredentials
  /-- `expect("session of context being dropped is still in use")`,
  `context.rs:267`. -/
  | sessionStillInUse
  /-- the message of `todo` in `add_endpoint_tcp`/`add_endpoint_tls`
  ("not yet implemented"). -/
  | notYetImplemented
deriving DecidableEq, Repr

/-- Outcome of an operation that can return normally, return an error, or
panic (diverge with a panic message). -/
inductive Outcome (ε : Type) (α : Type) where
  | ok (v : α)
  | error (e : ε)
  | panicked (msg : PanicMessage)
deriving DecidableEq, Repr

/-- The FFI calls the context layer makes into the native engine that matter
for the claims (session creation, teardown and the context free). -/
inductive NativeCall where
  /-- `coap_new_client_session(ctx, null, addr, COAP_PROTO_UDP)`. -/
  | newClientSession (addr : SocketAddr)
  /-- `coap_new_client_session_psk2(ctx, null, addr, COAP_PROTO_DTLS, psk)`. -/
  | newClientSessionPsk2 (addr : SocketAddr) (psk : CoapCryptoPskInfo)
  /-- `coap_new_client_session_oscore(ctx, local_if, server, proto, conf)`. -/
  | newClientSessionOscore (localIf server : SocketAddr) (proto : Nat)
      (conf : Nat)
  /-- destruction of one owned `CoapEndpoint` (its `Drop` impl). -/
  | endpointDestroy (ep : Nat)
  /-- `coap_session_release(raw_session)`. -/
  | sessionRelease (raw : Nat)
  /-- `coap_free_context(raw_context)`. -/
  | freeContext
deriving DecidableEq, Repr

/-- The state of a `CoapContext` that the modelled operations read and write:
the owned endpoints (by native identity) and the client-session table. -/
structure CoapContext where
  endpoints : List Nat
  client_sessions : List (SocketAddr × SessionToken)
deriving DecidableEq, Repr

namespace CoapContext

/-- `CoapContext::connect_udp` (`context.rs:109-127`).  The native
`coap_new_client_session` result is the oracle `nativeResult` (`none` models a
null pointer).  On success the fresh session token is inserted into
`client_sessions` keyed by `addr` and also returned inside the handle. -/
def connect_udp (ctx : CoapContext) (addr : SocketAddr)
    (nativeResult : Option Nat) :
    Except SessionCreationError (SessionToken × CoapContext) :=
  match nativeResult with
  | none => Except.error SessionCreationError.Unknown
  | some raw =>
    let session := mkSessionToken raw
    Except.ok (session,
      { ctx with client_sessions := insertSession ctx.client_sessions addr session })

/-- `CoapContext::connect_dtls` (`context.rs:64-107`).  The crypto provider's
`provide_info_for_hint(None)` answer is the oracle `providerDefault`; the
native `coap_new_client_session_psk2` result is the oracle `nativeResult`.
Returns the trace of native session-creation calls made, together with the
outcome: a missing default credential panics via `expect` before any native
call; a null native session yields `SessionCreationError::Unknown`; otherwise
the session is recorded in `client_sessions` and a handle is returned. -/
def connect_dtls (ctx : CoapContext) (addr : SocketAddr)
    (providerDefault : Option CoapCryptoPskInfo) (nativeResult : Option Nat) :
    List NativeCall × Outcome SessionCreationError (SessionToken × CoapContext) :=
  match providerDefault with
  | none => ([], Outcome.panicked PanicMessage.noDefaultCredentials)
  | some id =>
    let call := NativeCall.newClientSessionPsk2 addr id
    match nativeResult with
    | none => ([call], Outcome.error SessionCreationError.Unknown)
    | some raw =>
      let session := mkSessionToken raw
      ([call], Outcome.ok (session,
        { ctx with client_sessions := insertSession ctx.client_sessions addr session }))

/-- `CoapContext::add_endpoint_tcp` (`context.rs:138-140`): the body is the
`todo` macro, which panics with "not yet implemented"; the context is not
touched. -/
def add_endpoint_tcp (ctx : CoapContext) (_addr : SocketAddr) :
    CoapContext × Outcome EndpointCreationError Nat :=
  (ctx, Outcome.panicked PanicMessage.notYetImplemented)

/-- `CoapContext::add_endpoint_tls` (`context.rs:149-151`): the body is the
`todo` macro, which panics with "not yet implemented"; the context is not
touched. -/
def add_endpoint_tls (ctx : CoapContext) (_addr : SocketAddr) :
    CoapContext × Outcome EndpointCreationError Nat :=
  (ctx, Outcome.panicked PanicMessage.notYetImplemented)

end CoapContext

/-- The per-session body of the loop in `impl Drop for CoapContext`
(`context.rs:259-271`): the table's clone of the token is dropped (strong
count decreases by one), the slot's reference is reconstructed from the raw
app-data pointer (no count change), and `Rc::try_unwrap` must then find a
strong count of exactly one — otherwise `expect` panics with "session of
context being dropped is still in use" and the remaining sessions are not
processed.  On success `coap_session_release` is called on the raw session.
Returns the `coap_session_release` calls made, and whether the loop panicked. -/
def dropSessions : List (SocketAddr × SessionToken) →
    List NativeCall × Outcome Empty Unit
  | [] => ([], Outcome.ok ())
  | (_, tok) :: rest =>
    if tok.strongCount - 1 = 1 then
      let r := dropSessions rest
      (NativeCall.sessionRelease tok.raw_session :: r.1, r.2)
    else
      ([], Outcome.panicked PanicMessage.sessionStillInUse)

namespace CoapContext

/-- `impl Drop for CoapContext` (`context.rs:255-288`): first
`self.endpoints.clear()` destroys every owned endpoint (modelled from the
spec: each `CoapEndpoint`'s own `Drop`, in a source file not provided, frees
the native endpoint — spec section 3, Endpoint invariant); then every recorded
client session is unwrapped and released (`dropSessions`); finally, if no
panic interrupted the loop, `coap_free_context` frees the native context
handle.  A panic unwinds out of `drop`, so `coap_free_context` is not reached
in that case.  Returns the trace of native calls and the outcome. -/
def drop (ctx : CoapContext) : List NativeCall × Outcome Empty Unit :=
  let endpointCalls := ctx.endpoints.map NativeCall.endpointDestroy
  let r := dropSessions ctx.client_sessions
  match r.2 with
  | Outcome.ok _ => (endpointCalls ++ r.1 ++ [NativeCall.freeContext], Outcome.ok ())
  | e => (endpointCalls ++ r.1, e)

end CoapContext

/-- One iteration's worth of native-engine behaviour during `shutdown`: the
result of the `coap_can_exit` query (`true` iff nonzero) and the value
`coap_io_process` would return for this iteration's `do_io` call. -/
structure NativeStep where
  canExit : Bool
  ioResult : Int
deriving DecidableEq, Repr

/-- Result of the modelled `shutdown` loop. -/
inductive ShutdownResult where
  /-- the loop exited because `coap_can_exit` reported nonzero: `Ok(())`. -/
  | ok
  /-- `do_io` returned an error, propagated by `?`. -/
  | ioError (e : IoProcessError)
  /-- `Duration::sub` panicked: the iteration's elapsed time exceeded the
  remaining budget (`overflow when subtracting durations`). -/
  | panicked
  /-- the oracle trace ended while the loop was still running. -/
  | outOfSteps
deriving DecidableEq, Repr

/-- `CoapContext::shutdown` (`context.rs:242-250`): while `coap_can_exit`
reports zero, call `do_io(remaining_time)` and decrement the remaining budget
by the elapsed time via `remaining_time.map(|v| v.sub(spent_time))`.  The
native engine's behaviour is the oracle trace `steps`.  `Duration::sub` panics
on underflow, which the model makes explicit. -/
def shutdownLoop : List NativeStep → Option Duration → ShutdownResult
  | [], _ => ShutdownResult.outOfSteps
  | step :: rest, remaining_time =>
    if step.canExit then
      ShutdownResult.ok
    else
      match do_io remaining_time step.ioResult with
      | Except.error e => ShutdownResult.ioError e
      | Except.ok spent_time =>
        match remaining_time with
        | none => shutdownLoop rest none
        | some v =>
          if spent_time.nanos ≤ v.nanos then
            shutdownLoop rest (some ⟨v.nanos - spent_time.nanos⟩)
          else
            ShutdownResult.panicked

/-- `new_client_session_oscore` (`crypto/oscore/mod.rs:12-23`): calls
`coap_new_client_session_oscore` with the given context, interface, peer,
protocol and OSCORE configuration, discards the native result (the oracle
`nativeResult`, `none` modelling a null session pointer) and returns `()`.
The OSCORE configuration and protocol are opaque to this layer and modelled
by identity. -/
def new_client_session_oscore (local_if server : SocketAddr) (proto : Nat)
    (config : Nat) (_nativeResult : Option Nat) : List NativeCall × Unit :=
  ([NativeCall.newClientSessionOscore local_if server proto config], ())

/-- Classifier for the native-engine traces on which the `shutdown` loop runs
to a clean exit: the engine eventually reports it is safe to exit, every
`coap_io_process` call before that succeeds (non-negative result), and no
iteration's elapsed time exceeds the remaining budget (so the `Duration`
subtraction never underflows).  The remaining budget reaching exactly zero is
allowed and tracked, mirroring `shutdownLoop`. -/
def safeRun : List NativeStep → Option Duration → Bool
  | [], _ => false
  | step :: rest, remaining =>
    if step.canExit then
      true
    else if step.ioResult < 0 then
      false
    else
      match remaining with
      | none => safeRun rest none
      | some v =>
        let spent := Duration.from_millis step.ioResult.natAbs
        if spent.nanos ≤ v.nanos then
          safeRun rest (some ⟨v.nanos - spent.nanos⟩)
        else
          false

/-! ## Helper lemmas -/

/-- Reduction of `computeNativeTimeout` on a present timeout. -/
theorem computeNativeTimeout_some (d : Duration) :
    computeNativeTimeout (some d) =
      if d.subsec_micros > 0 ∨ d.subsec_nanos > 0 then
        u32_saturating_add
          (u32_try_from_or_max (u128_saturating_add d.as_millis 1)) 1
      else
        u32_try_from_or_max (u128_saturating_add d.as_millis 1) := rfl

/-- Reduction of `do_io` to its result handling. -/
theorem do_io_eq (t : Option Duration) (r : Int) :
    do_io t r =
      if r < 0 then Except.error IoProcessError.Unknown
      else Except.ok (Duration.from_millis r.natAbs) := rfl

/-- The guard `timeout.subsec_micros() > 0 || timeout.subsec_nanos() > 0` in
`do_io` is equivalent to the sub-second remainder being nonzero. -/
theorem subsec_guard_iff (d : Duration) :
    (d.subsec_micros > 0 ∨ d.subsec_nanos > 0) ↔ d.subsec_nanos ≠ 0 := by
  unfold Duration.subsec_micros
  omega

/-- Exact value of the converted timeout when the millisecond count is far
enough below the `u32` saturation bound: one more than the floor millisecond
count for whole-second durations, two more otherwise. -/
theorem computeNativeTimeout_eq_of_small (d : Duration)
    (h : d.as_millis + 2 ≤ U32_MAX) :
    computeNativeTimeout (some d) =
      d.as_millis + (if d.subsec_nanos = 0 then 1 else 2) := by
  rw [computeNativeTimeout_some]
  have h128 : u128_saturating_add d.as_millis 1 = d.as_millis + 1 := by
    unfold u128_saturating_add U32_MAX at *
    omega
  have htry : u32_try_from_or_max (d.as_millis + 1) = d.as_millis + 1 := by
    unfold u32_try_from_or_max
    rw [if_pos (by omega)]
  rcases Decidable.em (d.subsec_micros > 0 ∨ d.subsec_nanos > 0) with hc | hc
  · have hn : ¬ d.subsec_nanos = 0 := (subsec_guard_iff d).mp hc
    rw [if_pos hc, if_neg hn, h128, htry]
    unfold u32_saturating_add
    omega
  · have hn : d.subsec_nanos = 0 := by
      by_contra hne
      exact hc ((subsec_guard_iff d).mpr hne)
    rw [if_neg hc, if_pos hn, h128, htry]

/-- The converted timeout saturates at `u32::MAX` once the floor millisecond
count reaches `u32::MAX`. -/
theorem computeNativeTimeout_saturates (d : Duration)
    (h : U32_MAX ≤ d.as_millis) :
    computeNativeTimeout (some d) = U32_MAX := by
  rw [computeNativeTimeout_some]
  have htry : u32_try_from_or_max (u128_saturating_add d.as_millis 1) =
      U32_MAX := by
    unfold u32_try_from_or_max u128_saturating_add U32_MAX at *
    rw [if_neg (by omega)]
  rcases Decidable.em (d.subsec_micros > 0 ∨ d.subsec_nanos > 0) with hc | hc
  · rw [if_pos hc, htry]
    unfold u32_saturating_add
    omega
  · rw [if_neg hc]
    exact htry

/-- The converted timeout is always positive (hence distinct from the
`COAP_IO_WAIT` sentinel, which is `0`). -/
theorem computeNativeTimeout_pos (d : Duration) :
    1 ≤ computeNativeTimeout (some d) := by
  rw [computeNativeTimeout_some]
  have h1 : 1 ≤ u32_try_from_or_max (u128_saturating_add d.as_millis 1) := by
    unfold u32_try_from_or_max
    split
    · unfold u128_saturating_add
      omega
    · unfold U32_MAX
      omega
  rcases Decidable.em (d.subsec_micros > 0 ∨ d.subsec_nanos > 0) with hc | hc
  · rw [if_pos hc]
    unfold u32_saturating_add U32_MAX
    omega
  · rw [if_neg hc]
    exact h1

/-! ## Claim theorems -/

/-- Claim C2, counterexample.  The claim asserts that for every duration with
a nonzero sub-millisecond remainder the converted native timeout is strictly
greater than the duration's floor millisecond count.  At
`d = 4294967295 ms + 1 ns` (nanos `4294967295000001`) the sub-millisecond
remainder is `1 ns ≠ 0`, yet the conversion saturates at `u32::MAX`, which
equals the floor millisecond count — not strictly greater. -/
theorem C2_counterexample :
    Duration.subsec_nanos ⟨4294967295000001⟩ % 1000000 ≠ 0 ∧
    ¬ Duration.as_millis ⟨4294967295000001⟩ <
        computeNativeTimeout (some ⟨4294967295000001⟩) := by
  constructor
  · decide
  · decide

/-- Claim C2 (amended): for every timeout duration with a nonzero
sub-millisecond remainder whose floor millisecond count is below `u32::MAX`,
the converted native timeout is strictly greater than the floor millisecond
count; the conversion yields exactly `u32::MAX` whenever the floor millisecond
count is at least `u32::MAX` (saturation); and `None` is converted to the
indefinite-wait sentinel `COAP_IO_WAIT`. -/
theorem C2_timeout_strictly_greater_below_saturation :
    (∀ d : Duration, d.subsec_nanos % 1000000 ≠ 0 → d.as_millis < U32_MAX →
      d.as_millis < computeNativeTimeout (some d)) ∧
    (∀ d : Duration, U32_MAX ≤ d.as_millis →
      computeNativeTimeout (some d) = U32_MAX) ∧
    computeNativeTimeout none = COAP_IO_WAIT := by
  refine ⟨?_, computeNativeTimeout_saturates, rfl⟩
  intro d hrem hlt
  rw [computeNativeTimeout_some]
  have hc : d.subsec_micros > 0 ∨ d.subsec_nanos > 0 := by
    refine (subsec_guard_iff d).mpr ?_
    omega
  have e1 : u32_try_from_or_max (u128_saturating_add d.as_millis 1) =
      d.as_millis + 1 := by
    unfold u32_try_from_or_max u128_saturating_add U32_MAX at *
    rw [if_pos (by omega)]
    omega
  rw [if_pos hc, e1]
  unfold u32_saturating_add U32_MAX at *
  omega

/-- Claim C2, witness: at `d = 1 ms + 1 ns` the sub-millisecond remainder is
nonzero, the floor count `1` is below `u32::MAX`, and indeed the converted
timeout (`3`) is strictly greater than `1`. -/
theorem C2_witness :
    Duration.as_millis ⟨1000001⟩ < computeNativeTimeout (some ⟨1000001⟩) :=
  C2_timeout_strictly_greater_below_saturation.1 ⟨1000001⟩ (by decide)
    (by decide)

/-- Claim C7: `do_io` returns an `IoProcessError` exactly when the native
`coap_io_process` return value is negative, and for every non-negative native
return value `r` it returns `Ok` with an elapsed duration of exactly `r`
milliseconds. -/
theorem C7_do_io_error_iff_negative :
    ∀ (t : Option Duration) (r : Int),
      ((∃ e, do_io t r = Except.error e) ↔ r < 0) ∧
      (0 ≤ r → do_io t r = Except.ok (Duration.from_millis r.toNat)) := by
  intro t r
  rw [do_io_eq]
  rcases Decidable.em (r < 0) with hneg | hneg
  · rw [if_pos hneg]
    exact ⟨⟨fun _ => hneg, fun _ => ⟨IoProcessError.Unknown, rfl⟩⟩,
      fun h => absurd hneg (by omega)⟩
  · rw [if_neg hneg]
    refine ⟨⟨fun he => ?_, fun h => absurd h hneg⟩, fun _ => ?_⟩
    · obtain ⟨e, he⟩ := he
      cases he
    · have hab : r.natAbs = r.toNat := by omega
      rw [hab]

/-- Claim C7, witness: at native return value `3`, `do_io` yields `Ok(3 ms)`;
at `-1` it yields an error. -/
theorem C7_witness :
    do_io none 3 = Except.ok (Duration.from_millis (Int.toNat 3)) :=
  (C7_do_io_error_iff_negative none 3).2 (by decide)

/-- Claim C10, counterexample.  The claim asserts the converted timeout is
`floor_ms + 1` whenever the duration has no sub-millisecond remainder.  At
`d = 500 ms` exactly (nanos `500000000`) the sub-millisecond remainder is `0`,
yet the conversion yields `502 = floor_ms + 2`, because the source guards on
`subsec_micros() > 0 || subsec_nanos() > 0` — a nonzero sub-second (not
sub-millisecond) remainder. -/
theorem C10_counterexample :
    Duration.subsec_nanos ⟨500000000⟩ % 1000000 = 0 ∧
    computeNativeTimeout (some ⟨500000000⟩) ≠
      Duration.as_millis ⟨500000000⟩ + 1 := by
  constructor
  · decide
  · decide

/-- Claim C10 (amended): for every finite timeout `Some(d)` whose floor
millisecond count is below the `u32` saturation bound, the converted native
timeout equals `floor_ms + 1` when `d` is a whole number of seconds
(`subsec_nanos = 0`) and `floor_ms + 2` when the sub-second remainder is
nonzero; for every finite timeout the converted value is at least `1` and
never equals the indefinite-wait sentinel `COAP_IO_WAIT`; and below the
saturation bound it is strictly greater than the floor millisecond count,
including for whole-millisecond durations and `d = 0`. -/
theorem C10_timeout_exact_value :
    (∀ d : Duration, d.as_millis + 2 ≤ U32_MAX →
      computeNativeTimeout (some d) =
        d.as_millis + (if d.subsec_nanos = 0 then 1 else 2)) ∧
    (∀ d : Duration, 1 ≤ computeNativeTimeout (some d) ∧
      computeNativeTimeout (some d) ≠ COAP_IO_WAIT) ∧
    (∀ d : Duration, d.as_millis + 2 ≤ U32_MAX →
      d.as_millis < computeNativeTimeout (some d)) := by
  refine ⟨computeNativeTimeout_eq_of_small, ?_, ?_⟩
  · intro d
    have := computeNativeTimeout_pos d
    unfold COAP_IO_WAIT
    omega
  · intro d h
    rw [computeNativeTimeout_eq_of_small d h]
    rcases Decidable.em (d.subsec_nanos = 0) with h0 | h0
    · rw [if_pos h0]
      omega
    · rw [if_neg h0]
      omega

/-- Claim C10, witness: at `d = 0` the converted timeout is exactly `1`
(`floor_ms + 1`), positive, distinct from the sentinel and strictly greater
than the floor millisecond count `0`. -/
theorem C10_witness :
    computeNativeTimeout (some ⟨0⟩) =
      Duration.as_millis ⟨0⟩ +
        (if Duration.subsec_nanos ⟨0⟩ = 0 then 1 else 2) :=
  C10_timeout_exact_value.1 ⟨0⟩ (by decide)

/-- Claim C5: when the credential provider returns no default credentials
(`provide_info_for_hint(None)` is `None`), `connect_dtls` panics via `expect`
(a programming-contract violation, not a recoverable
`SessionCreationError`), and no native session-creation call is made
(the emitted call trace is empty), regardless of what the native constructor
would have returned. -/
theorem C5_connect_dtls_missing_credentials_panics :
    ∀ (ctx : CoapContext) (addr : SocketAddr) (nativeResult : Option Nat),
      CoapContext.connect_dtls ctx addr none nativeResult =
        ([], Outcome.panicked PanicMessage.noDefaultCredentials) := by
  intro ctx addr nativeResult
  rfl

/-- Claim C8: for every address, `add_endpoint_tcp` and `add_endpoint_tls`
panic with the "not yet implemented" message of the `todo` macro: they never
return `Ok`, never return a mere error, and leave the context's endpoint
collection unchanged. -/
theorem C8_tcp_tls_unimplemented :
    ∀ (ctx : CoapContext) (addr : SocketAddr),
      (CoapContext.add_endpoint_tcp ctx addr).2 =
        Outcome.panicked PanicMessage.notYetImplemented ∧
      (CoapContext.add_endpoint_tls ctx addr).2 =
        Outcome.panicked PanicMessage.notYetImplemented ∧
      (∀ i, (CoapContext.add_endpoint_tcp ctx addr).2 ≠ Outcome.ok i) ∧
      (∀ i, (CoapContext.add_endpoint_tls ctx addr).2 ≠ Outcome.ok i) ∧
      (CoapContext.add_endpoint_tcp ctx addr).1 = ctx ∧
      (CoapContext.add_endpoint_tls ctx addr).1 = ctx := by
  intro ctx addr
  refine ⟨rfl, rfl, ?_, ?_, rfl, rfl⟩ <;> intro i h <;> cases h

/-- Claim C9: `new_client_session_oscore` delegates to the native OSCORE
session constructor with exactly the given arguments and returns no value:
its output is identical whatever the native constructor returns (success or
null), so neither a typed session wrapper nor an error is surfaced. -/
theorem C9_oscore_returns_unit_ignores_native_result :
    ∀ (local_if server : SocketAddr) (proto config : Nat)
      (r₁ r₂ : Option Nat),
      new_client_session_oscore local_if server proto config r₁ =
        new_client_session_oscore local_if server proto config r₂ ∧
      (new_client_session_oscore local_if server proto config r₁).1 =
        [NativeCall.newClientSessionOscore local_if server proto config] ∧
      (new_client_session_oscore local_if server proto config r₁).2 = () := by
  intro local_if server proto config r₁ r₂
  exact ⟨rfl, rfl, rfl⟩

/-- `lookupSession` finds exactly the value just written by `insertSession`
under the same key. -/
theorem lookupSession_insert (m : List (SocketAddr × SessionToken))
    (k : SocketAddr) (v : SessionToken) :
    lookupSession (insertSession m k v) k = some v := by
  unfold lookupSession insertSession
  rw [List.find?_cons_of_pos]
  · rfl
  · simp

/-- Claim C4: whenever `connect_udp` succeeds (the native constructor
returned a non-null session), the session underlying the returned handle has
been inserted into the context's `client_sessions` table keyed by exactly the
address used to connect, so it is retrievable from the table under that
address. -/
theorem C4_connect_udp_records_session :
    ∀ (ctx : CoapContext) (addr : SocketAddr) (raw : Nat)
      (session : SessionToken) (ctx' : CoapContext),
      CoapContext.connect_udp ctx addr (some raw) =
        Except.ok (session, ctx') →
      lookupSession ctx'.client_sessions addr = some session := by
  intro ctx addr raw session ctx' h
  simp only [CoapContext.connect_udp, Except.ok.injEq, Prod.mk.injEq] at h
  obtain ⟨h1, h2⟩ := h
  subst h1
  subst h2
  exact lookupSession_insert ctx.client_sessions addr (mkSessionToken raw)

/-- Claim C4, witness: connecting on the empty context at address `(1, 2)`
with native session `5` records the session under `(1, 2)`. -/
theorem C4_witness :
    lookupSession
      (CoapContext.mk [] [(⟨1, 2⟩, mkSessionToken 5)]).client_sessions
      ⟨1, 2⟩ = some (mkSessionToken 5) :=
  C4_connect_udp_records_session ⟨[], []⟩ ⟨1, 2⟩ 5 (mkSessionToken 5)
    ⟨[], [(⟨1, 2⟩, mkSessionToken 5)]⟩ (by rfl)

/-- `shutdown` exits immediately with `Ok` when `coap_can_exit` reports
nonzero. -/
theorem shutdownLoop_cons_exit (step : NativeStep) (rest : List NativeStep)
    (remaining : Option Duration) (h : step.canExit = true) :
    shutdownLoop (step :: rest) remaining = ShutdownResult.ok := by
  unfold shutdownLoop
  rw [if_pos h]

/-- With no finite budget, a successful iteration just continues the loop. -/
theorem shutdownLoop_cons_none (step : NativeStep) (rest : List NativeStep)
    (hce : step.canExit = false) (hio : ¬ step.ioResult < 0) :
    shutdownLoop (step :: rest) none = shutdownLoop rest none := by
  unfold shutdownLoop
  rw [hce, do_io_eq, if_neg hio]
  simp only [Bool.false_eq_true, if_false]
  rw [shutdownLoop.eq_def]

/-- With a finite budget at least the iteration's elapsed time, the loop
continues with the decremented budget. -/
theorem shutdownLoop_cons_some_le (step : NativeStep)
    (rest : List NativeStep) (v : Duration) (hce : step.canExit = false)
    (hio : ¬ step.ioResult < 0)
    (hle : (Duration.from_millis step.ioResult.natAbs).nanos ≤ v.nanos) :
    shutdownLoop (step :: rest) (some v) =
      shutdownLoop rest
        (some ⟨v.nanos - (Duration.from_millis step.ioResult.natAbs).nanos⟩) := by
  unfold shutdownLoop
  rw [hce, do_io_eq, if_neg hio]
  simp only [Bool.false_eq_true, if_false]
  rw [if_pos hle]
  rw [shutdownLoop.eq_def]

/-- With a finite budget smaller than the iteration's elapsed time, the
`Duration` subtraction underflows and `shutdown` panics. -/
theorem shutdownLoop_cons_some_gt (step : NativeStep)
    (rest : List NativeStep) (v : Duration) (hce : step.canExit = false)
    (hio : ¬ step.ioResult < 0)
    (hgt : ¬ (Duration.from_millis step.ioResult.natAbs).nanos ≤ v.nanos) :
    shutdownLoop (step :: rest) (some v) = ShutdownResult.panicked := by
  unfold shutdownLoop
  rw [hce, do_io_eq, if_neg hio]
  simp only [Bool.false_eq_true, if_false]
  rw [if_neg hgt]

/-- Claim C3, counterexample.  The claim asserts that an exhausted budget
before the engine reports safe-to-exit still yields `Ok`.  On the trace where
the engine is not yet ready, the first `do_io` call reports 10 ms elapsed
against a remaining budget of 5 ms (budget exhausted before safe-to-exit),
and the engine would report safe-to-exit on the next query, `shutdown` does
not return `Ok`: the `Duration` subtraction
`remaining_time.map(|v| v.sub(spent_time))` underflows and panics. -/
theorem C3_counterexample :
    shutdownLoop [⟨false, 10⟩, ⟨true, 0⟩] (some (Duration.from_millis 5)) =
      ShutdownResult.panicked ∧
    shutdownLoop [⟨false, 10⟩, ⟨true, 0⟩] (some (Duration.from_millis 5)) ≠
      ShutdownResult.ok := by
  constructor
  · decide
  · decide

/-- Claim C3 (amended): `shutdown` repeatedly invokes `do_io` with the
remaining budget until the native engine reports it is safe to exit,
decrementing the remaining budget by each iteration's elapsed time.  A budget
that reaches exactly zero before the engine reports safe-to-exit is not
detected: the loop keeps running and returns `Ok` once the engine reports
safe-to-exit, indistinguishable from a fully drained shutdown — provided no
iteration's elapsed time exceeds the remaining budget; when one does, the
`Duration` subtraction underflows and `shutdown` panics instead of returning
`Ok`. -/
theorem C3_shutdown_drains_until_can_exit :
    (∀ (steps : List NativeStep) (budget : Option Duration),
      safeRun steps budget = true →
      shutdownLoop steps budget = ShutdownResult.ok) ∧
    (∀ (step : NativeStep) (rest : List NativeStep) (v : Duration),
      step.canExit = false → ¬ step.ioResult < 0 →
      v.nanos < (Duration.from_millis step.ioResult.natAbs).nanos →
      shutdownLoop (step :: rest) (some v) = ShutdownResult.panicked) := by
  constructor
  · intro steps
    induction steps with
    | nil =>
      intro budget h
      simp [safeRun] at h
    | cons step rest ih =>
      intro budget h
      by_cases hce : step.canExit = true
      · exact shutdownLoop_cons_exit step rest budget hce
      · have hce' : step.canExit = false := by
          revert hce
          cases step.canExit <;> simp
        unfold safeRun at h
        rw [hce'] at h
        simp only [Bool.false_eq_true, if_false] at h
        by_cases hio : step.ioResult < 0
        · rw [if_pos hio] at h
          cases h
        · rw [if_neg hio] at h
          rcases budget with _ | v
          · rw [shutdownLoop_cons_none step rest hce' hio]
            exact ih none h
          · dsimp only at h
            by_cases hle :
                (Duration.from_millis step.ioResult.natAbs).nanos ≤ v.nanos
            · rw [if_pos hle] at h
              rw [shutdownLoop_cons_some_le step rest v hce' hio hle]
              exact ih _ h
            · rw [if_neg hle] at h
              cases h
  · intro step rest v hce hio hgt
    exact shutdownLoop_cons_some_gt step rest v hce hio (by omega)

/-- Claim C3, witness: on a trace whose first iteration consumes the whole
5 ms budget, whose second iteration runs with a zero budget, and whose third
query reports safe-to-exit, `shutdown` returns `Ok` — the exhausted budget is
indistinguishable from a fully drained shutdown. -/
theorem C3_witness :
    shutdownLoop [⟨false, 5⟩, ⟨false, 0⟩, ⟨true, 0⟩]
      (some (Duration.from_millis 5)) = ShutdownResult.ok :=
  C3_shutdown_drains_until_can_exit.1
    [⟨false, 5⟩, ⟨false, 0⟩, ⟨true, 0⟩] (some (Duration.from_millis 5))
    (by decide)

/-- Reduction of `dropSessions` on a cons cell. -/
theorem dropSessions_cons (ad : SocketAddr) (tok : SessionToken)
    (rest : List (SocketAddr × SessionToken)) :
    dropSessions ((ad, tok) :: rest) =
      if tok.strongCount - 1 = 1 then
        (NativeCall.sessionRelease tok.raw_session :: (dropSessions rest).1,
          (dropSessions rest).2)
      else
        ([], Outcome.panicked PanicMessage.sessionStillInUse) := by
  rw [dropSessions.eq_def]

/-- The session loop of the context's `Drop` either finishes cleanly or
panics with the "still in use" message; no other outcome is possible. -/
theorem dropSessions_snd_cases (l : List (SocketAddr × SessionToken)) :
    (dropSessions l).2 = Outcome.ok () ∨
    (dropSessions l).2 =
      Outcome.panicked PanicMessage.sessionStillInUse := by
  induction l with
  | nil => exact Or.inl rfl
  | cons a rest ih =>
    rcases a with ⟨ad, tok⟩
    rw [dropSessions_cons]
    by_cases h : tok.strongCount - 1 = 1
    · rw [if_pos h]
      exact ih
    · rw [if_neg h]
      exact Or.inr rfl

/-- The session loop of the context's `Drop` finishes cleanly exactly when
every recorded token has strong count `2`: the table's own clone plus the
app-data slot's reference and nothing else (the `Rc::try_unwrap` condition
`strongCount - 1 = 1`). -/
theorem dropSessions_ok_iff (l : List (SocketAddr × SessionToken)) :
    (dropSessions l).2 = Outcome.ok () ↔
      ∀ e ∈ l, e.2.strongCount = 2 := by
  induction l with
  | nil => simp [dropSessions]
  | cons a rest ih =>
    rcases a with ⟨ad, tok⟩
    rw [dropSessions_cons]
    by_cases h : tok.strongCount - 1 = 1
    · rw [if_pos h]
      constructor
      · intro h2 e he
        rcases List.mem_cons.mp he with he | he
        · subst he
          show tok.strongCount = 2
          omega
        · exact ih.mp h2 e he
      · intro h2
        exact ih.mpr (fun e he => h2 e (List.mem_cons.mpr (Or.inr he)))
    · rw [if_neg h]
      constructor
      · intro h2
        cases h2
      · intro h2
        have h3 : tok.strongCount = 2 := h2 (ad, tok) (List.mem_cons_self _ _)
        omega

/-- Every call in the session loop's trace is a `coap_session_release` on a
session whose token had strong count exactly `2` (the unwrap succeeded). -/
theorem mem_dropSessions_fst (l : List (SocketAddr × SessionToken))
    (c : NativeCall) (hc : c ∈ (dropSessions l).1) :
    ∃ e ∈ l, c = NativeCall.sessionRelease e.2.raw_session ∧
      e.2.strongCount = 2 := by
  induction l with
  | nil =>
    cases hc
  | cons a rest ih =>
    rcases a with ⟨ad, tok⟩
    rw [dropSessions_cons] at hc
    by_cases h : tok.strongCount - 1 = 1
    · rw [if_pos h] at hc
      rcases List.mem_cons.mp hc with hc | hc
      · exact ⟨(ad, tok), List.mem_cons_self _ _, hc,
          by show tok.strongCount = 2; omega⟩
      · obtain ⟨e, he, hce⟩ := ih hc
        exact ⟨e, List.mem_cons.mpr (Or.inr he), hce⟩
    · rw [if_neg h] at hc
      cases hc

/-- A session whose token still has holders besides the table and the
app-data slot is never released by the session loop (given distinct native
session identities). -/
theorem dropSessions_not_released (l : List (SocketAddr × SessionToken))
    (e : SocketAddr × SessionToken) (he : e ∈ l)
    (hc : e.2.strongCount ≠ 2)
    (hnd : (l.map (fun x => x.2.raw_session)).Nodup) :
    NativeCall.sessionRelease e.2.raw_session ∉ (dropSessions l).1 := by
  intro hmem
  obtain ⟨e', he', heq, hcount⟩ := mem_dropSessions_fst l _ hmem
  have hraw : e'.2.raw_session = e.2.raw_session := by
    injection heq with h
    exact h.symm
  have : e' = e := List.inj_on_of_nodup_map hnd he' he hraw
  subst this
  exact hc hcount

/-- `Drop` when the session loop finishes cleanly: endpoint destruction,
then the session releases, then `coap_free_context`. -/
theorem drop_of_ok (ctx : CoapContext)
    (h : (dropSessions ctx.client_sessions).2 = Outcome.ok ()) :
    CoapContext.drop ctx =
      (ctx.endpoints.map NativeCall.endpointDestroy ++
        (dropSessions ctx.client_sessions).1 ++ [NativeCall.freeContext],
       Outcome.ok ()) := by
  simp only [CoapContext.drop]
  rw [h]

/-- `Drop` when the session loop panics: endpoint destruction and the
releases made before the panic; the panic unwinds, so `coap_free_context` is
never reached. -/
theorem drop_of_panicked (ctx : CoapContext)
    (h : (dropSessions ctx.client_sessions).2 =
      Outcome.panicked PanicMessage.sessionStillInUse) :
    CoapContext.drop ctx =
      (ctx.endpoints.map NativeCall.endpointDestroy ++
        (dropSessions ctx.client_sessions).1,
       Outcome.panicked PanicMessage.sessionStillInUse) := by
  simp only [CoapContext.drop]
  rw [h]

/-- The outcome of `Drop` is the outcome of its session loop. -/
theorem drop_snd (ctx : CoapContext) :
    (CoapContext.drop ctx).2 = (dropSessions ctx.client_sessions).2 := by
  rcases dropSessions_snd_cases ctx.client_sessions with h | h
  · rw [drop_of_ok ctx h, h]
  · rw [drop_of_panicked ctx h, h]

/-- Claim C1: during context teardown, for every client session recorded in
the peer-address table the host must be the sole remaining holder of the
session's shared ownership token (strong count exactly `2`: the table's clone
being dropped plus the app-data slot's reference the host reclaims
Rc-unwrapping); teardown finishes cleanly iff that holds for every recorded
session, and whenever some session still has an external holder
(strong count above `2`), teardown panics with the documented "still in use"
message and that session's `coap_session_release` is never invoked. -/
theorem C1_drop_sole_ownership_or_panic :
    ∀ (ctx : CoapContext),
      (∀ e ∈ ctx.client_sessions, 2 ≤ e.2.strongCount) →
      (ctx.client_sessions.map (fun x => x.2.raw_session)).Nodup →
      (((CoapContext.drop ctx).2 = Outcome.ok ()) ↔
        ∀ e ∈ ctx.client_sessions, e.2.strongCount = 2) ∧
      (∀ e ∈ ctx.client_sessions, 2 < e.2.strongCount →
        (CoapContext.drop ctx).2 =
          Outcome.panicked PanicMessage.sessionStillInUse ∧
        NativeCall.sessionRelease e.2.raw_session ∉
          (CoapContext.drop ctx).1) := by
  intro ctx _hinv hnd
  constructor
  · rw [drop_snd]
    exact dropSessions_ok_iff ctx.client_sessions
  · intro e he hcount
    have hne : e.2.strongCount ≠ 2 := by omega
    have hpan : (dropSessions ctx.client_sessions).2 =
        Outcome.panicked PanicMessage.sessionStillInUse := by
      rcases dropSessions_snd_cases ctx.client_sessions with h | h
      · exact absurd ((dropSessions_ok_iff ctx.client_sessions).mp h e he)
          hne
      · exact h
    refine ⟨by rw [drop_snd]; exact hpan, ?_⟩
    rw [drop_of_panicked ctx hpan]
    intro hmem
    rcases List.mem_append.mp hmem with hmem | hmem
    · obtain ⟨ep, _, heq⟩ := List.mem_map.mp hmem
      cases heq
    · exact dropSessions_not_released ctx.client_sessions e he hne hnd hmem

/-- Claim C1, witness: a context with one recorded session of strong count
`2` (no external holder) tears down cleanly. -/
theorem C1_witness :
    (CoapContext.drop ⟨[], [(⟨0, 0⟩, ⟨7, 2⟩)]⟩).2 = Outcome.ok () :=
  ((C1_drop_sole_ownership_or_panic ⟨[], [(⟨0, 0⟩, ⟨7, 2⟩)]⟩ (by decide)
    (by decide)).1).mpr (by decide)

/-- Claim C6: in every teardown trace of the context, every endpoint
destruction happens strictly before `coap_free_context`; in particular no
reachable teardown sequence frees the native context handle while an owned
endpoint still exists. -/
theorem C6_endpoints_destroyed_before_context_free :
    ∀ (ctx : CoapContext) (i j : Nat) (ep : Nat),
      (CoapContext.drop ctx).1[i]? = some (NativeCall.endpointDestroy ep) →
      (CoapContext.drop ctx).1[j]? = some NativeCall.freeContext →
      i < j := by
  intro ctx i j ep hi hj
  rcases dropSessions_snd_cases ctx.client_sessions with h | h
  · rw [drop_of_ok ctx h] at hi hj
    have hjlen :
        (ctx.endpoints.map NativeCall.endpointDestroy ++
          (dropSessions ctx.client_sessions).1).length ≤ j := by
      by_contra hlt
      push_neg at hlt
      rw [List.getElem?_append_left hlt] at hj
      have hmem := List.getElem?_mem hj
      rcases List.mem_append.mp hmem with hmem | hmem
      · obtain ⟨ep', _, heq⟩ := List.mem_map.mp hmem
        cases heq
      · obtain ⟨e, _, heq, _⟩ := mem_dropSessions_fst _ _ hmem
        cases heq
    have hilen : i < (ctx.endpoints.map NativeCall.endpointDestroy).length := by
      by_contra hge
      push_neg at hge
      rw [List.append_assoc, List.getElem?_append_right hge] at hi
      have hmem := List.getElem?_mem hi
      rcases List.mem_append.mp hmem with hmem | hmem
      · obtain ⟨e, _, heq, _⟩ := mem_dropSessions_fst _ _ hmem
        cases heq
      · rw [List.mem_singleton] at hmem
        cases hmem
    rw [List.length_append] at hjlen
    omega
  · rw [drop_of_panicked ctx h] at hj
    have hmem := List.getElem?_mem hj
    rcases List.mem_append.mp hmem with hmem | hmem
    · obtain ⟨ep', _, heq⟩ := List.mem_map.mp hmem
      cases heq
    · obtain ⟨e, _, heq, _⟩ := mem_dropSessions_fst _ _ hmem
      cases heq

/-- Claim C6, witness: a context with one endpoint and no sessions destroys
the endpoint at position 0 of its teardown trace and frees the native context
at position 1, so the destruction happens strictly before the free. -/
theorem C6_witness :
    (CoapContext.drop ⟨[7], []⟩).1[0]? =
        some (NativeCall.endpointDestroy 7) ∧
    (CoapContext.drop ⟨[7], []⟩).1[1]? = some NativeCall.freeContext ∧
    (0 : Nat) < 1 :=
  ⟨by decide, by decide,
    C6_endpoints_destroyed_before_context_free ⟨[7], []⟩ 0 1 7 (by decide)
      (by decide)⟩

end LibcoapRs
